import Mathlib

/-!
Verification of the client-side image cache and optimization-state
coordinator of the wedding-greeting-card web app.

The definitions below are a shallow embedding of `public/script.js`:

* the cache layer (IIFE `imageCache`, lines 22-137): `getCompositeKey`,
  `openDB`, `get`, `set`, with the IndexedDB store and the localStorage
  fallback modelled as association lists inside `CacheState`, and the
  host-environment failure modes (IndexedDB unavailable, read/write
  errors, localStorage quota) modelled as boolean flags in `CacheEnv`;
* the UI event handlers (`handleFileSelect`, the `optimizeToggle`
  change handler, `optimizeImage`, the `submitBtn` click handler,
  `resetForm`), modelled as functions on an explicit `ClientState`,
  returning the new state together with the list of observable
  effects (cache reads/writes and network requests) the handler issues.

JavaScript truthiness of strings (the empty string is falsy, as in
`cached || null` and `optimizeToggle.checked && optimizedImageDataUrl`)
is modelled explicitly.
-/

namespace WeddingCard

/-- JS string coercion `s || null`: the empty string is falsy, so it
collapses to `none` (script.js lines 54, 64, 71). -/
def jsOrNull (o : Option String) : Option String :=
  match o with
  | none => none
  | some s => if s = "" then none else some s

/-- JS truthiness of a possibly-null string variable: `null` and the
empty string are falsy. -/
def jsTruthyStr (o : Option String) : Bool :=
  match o with
  | none => false
  | some s => !(s = "")

/-- JS string defaulting `e || d` where `e` may be absent. -/
def jsOrDefault (o : Option String) (d : String) : String :=
  match o with
  | none => d
  | some s => if s = "" then d else s

/-- JS `s.startsWith(p)`, modelled on the character lists so that it
evaluates inside the kernel. -/
def strStartsWith (s p : String) : Bool :=
  p.data.isPrefixOf s.data

/-- Association-list lookup, used to model both the IndexedDB object
store (exact-key `store.get`) and `localStorage.getItem`. -/
def assocGet {α : Type} (k : String) : List (String × α) → Option α
  | [] => none
  | (k', v) :: rest => if k' = k then some v else assocGet k rest

/-- Association-list update, used to model both `store.put` (which
replaces the record with the same `key`) and `localStorage.setItem`. -/
def assocPut {α : Type} (k : String) (v : α) : List (String × α) → List (String × α)
  | [] => [(k, v)]
  | (k', v') :: rest =>
      if k' = k then (k, v) :: rest else (k', v') :: assocPut k v rest

/-- Record stored in the IndexedDB object store `images`
(script.js lines 94-100). -/
structure IDBRecord where
  key : String
  fileName : String
  style : String
  data : String
  timestamp : Nat
  deriving DecidableEq, Repr

/-- The two persistent backends: the IndexedDB object store and the
localStorage namespace. -/
structure CacheState where
  idb : List (String × IDBRecord)
  ls : List (String × String)
  deriving DecidableEq, Repr

def emptyCache : CacheState := ⟨[], []⟩

/-- Host-environment failure flags for one cache call: whether
`indexedDB.open` succeeds, whether the store read / write request
errors, and whether `localStorage.setItem` throws a quota error. -/
structure CacheEnv where
  idbAvail : Bool
  idbReadError : Bool
  idbWriteError : Bool
  lsQuota : Bool
  deriving DecidableEq, Repr

/-- Cache environment with the structured store available and no
backend failures. -/
def okEnv : CacheEnv := ⟨true, false, false, false⟩

/-- Cache environment where `indexedDB` is unavailable and there are no
other failures. -/
def noIdbEnv : CacheEnv := ⟨false, false, false, false⟩

inductive CacheError where
  | backendError
  | quotaExceeded
  deriving DecidableEq, Repr

/-- The localStorage key namespace `CACHE_KEY_PREFIX` (script.js
line 18); renamed to avoid clashing with Lean vocabulary. -/
def cacheKeyNS : String := "wedding_card_"

/-- script.js lines 27-29: composite cache key. -/
def getCompositeKey (fileName style : String) : String :=
  fileName ++ "_style_" ++ style

/-- A style value in its canonical decimal rendering: every character
is a decimal digit (the style is a small non-negative integer index
rendered in decimal). -/
def allDigits (s : String) : Prop := ∀ c ∈ s.data, c.isDigit = true

instance (s : String) : Decidable (allDigits s) :=
  inferInstanceAs (Decidable (∀ c ∈ s.data, c.isDigit = true))

/-- script.js lines 31-47: `openDB` resolves `null` when `indexedDB`
is missing or opening errors, else a handle. -/
def openDB (env : CacheEnv) : Option Unit :=
  if env.idbAvail then some () else none

/-- `localStorage.getItem` (never throws). -/
def lsGetItem (st : CacheState) (k : String) : Option String :=
  assocGet k st.ls

/-- `localStorage.setItem`: throws a quota error when the quota flag is
set, else stores the value. -/
def lsSetItem (env : CacheEnv) (st : CacheState) (k v : String) :
    Except CacheError CacheState :=
  if env.lsQuota then .error .quotaExceeded
  else .ok { st with ls := assocPut k v st.ls }

/-- IndexedDB `store.get` request: errors when the read-error flag is
set, else an exact-key lookup. -/
def idbGet (env : CacheEnv) (st : CacheState) (k : String) :
    Except CacheError (Option IDBRecord) :=
  if env.idbReadError then .error .backendError
  else .ok (assocGet k st.idb)

/-- IndexedDB `store.put` in a readwrite transaction: errors when the
write-error flag is set, else replaces the record with the same key. -/
def idbPut (env : CacheEnv) (st : CacheState) (rec : IDBRecord) :
    Except CacheError CacheState :=
  if env.idbWriteError then .error .backendError
  else .ok { st with idb := assocPut rec.key rec st.idb }

/-- script.js lines 49-75: `imageCache.get`. When the DB is
unavailable, read the fallback store; otherwise read the object store,
falling back to localStorage on a request error or a miss. The
`.error` results of the primitives are exactly the handler entry
points (`req.onerror`); the composition itself never produces
`.error`. -/
def imageCacheGet (env : CacheEnv) (st : CacheState) (fileName style : String) :
    Except CacheError (Option String) :=
  let key := getCompositeKey fileName style
  match openDB env with
  | none => .ok (jsOrNull (lsGetItem st (cacheKeyNS ++ key)))
  | some _ =>
      match idbGet env st key with
      | .error _ => .ok (jsOrNull (lsGetItem st (cacheKeyNS ++ key)))
      | .ok (some rec) => .ok (some rec.data)
      | .ok none => .ok (jsOrNull (lsGetItem st (cacheKeyNS ++ key)))

/-- script.js lines 77-112: `imageCache.set`. When the DB is
unavailable, try the fallback store, swallowing a quota error
(`try/catch` with `console.warn`); otherwise `put` into the object
store, and on a transaction error fall back to the fallback store,
again swallowing its quota error. The composition never produces
`.error`. `now` models `Date.now()`. -/
def imageCacheSet (env : CacheEnv) (now : Nat) (st : CacheState)
    (fileName style dataUrl : String) : Except CacheError CacheState :=
  let key := getCompositeKey fileName style
  match openDB env with
  | none =>
      match lsSetItem env st (cacheKeyNS ++ key) dataUrl with
      | .error _ => .ok st
      | .ok st' => .ok st'
  | some _ =>
      match idbPut env st ⟨key, fileName, style, dataUrl, now⟩ with
      | .ok st' => .ok st'
      | .error _ =>
          match lsSetItem env st (cacheKeyNS ++ key) dataUrl with
          | .error _ => .ok st
          | .ok st' => .ok st'

/-- Value-level view of `imageCacheGet` (it never errors, so the
default branch is unreachable). -/
def cacheGetVal (env : CacheEnv) (st : CacheState) (fileName style : String) :
    Option String :=
  match imageCacheGet env st fileName style with
  | .ok v => v
  | .error _ => none

/-- State-level view of `imageCacheSet`. -/
def cacheSetState (env : CacheEnv) (now : Nat) (st : CacheState)
    (fileName style dataUrl : String) : CacheState :=
  match imageCacheSet env now st fileName style dataUrl with
  | .ok st' => st'
  | .error _ => st

-- ---------- Client state and event handlers ----------

/-- A candidate file as seen by the handlers: `name`, `type` and
`size` of the JS `File` object. -/
structure JSFile where
  name : String
  type : String
  size : Nat
  deriving DecidableEq, Repr

/-- Observable side effects a handler issues, in order: cache
coordinator reads/writes and the two network requests. -/
inductive UploadPayload where
  /-- the `File` rebuilt from `optimizedImageDataUrl` (script.js
  lines 278-281): the optimized bytes, under the selected file's name. -/
  | optimized (dataUrl : String) (name : String)
  /-- the original selected file itself (script.js line 283). -/
  | original (f : JSFile)
  deriving DecidableEq, Repr

inductive Effect where
  | cacheGet (fileName style : String)
  | cacheSet (fileName style dataUrl : String)
  | optimizeRequest (fileName style : String)
  | uploadRequest (payload : UploadPayload)
  deriving DecidableEq, Repr

/-- Outcome of the `POST /api/optimize-image` request as the client
observes it. -/
inductive OptimizeResponse where
  /-- `response.ok`, body decoded to a data URL. -/
  | ok (dataUrl : String)
  /-- non-success status with parsed JSON `error` field (absent or
  empty string both fall back to `Unknown error`). -/
  | httpError (err : Option String)
  /-- transport-level rejection whose exception message is `msg`. -/
  | transportError (msg : String)
  deriving DecidableEq, Repr

/-- Outcome of the `POST /api/upload` request as the client observes it. -/
inductive UploadResponse where
  | ok
  | httpError (err : Option String)
  | transportError (msg : String)
  deriving DecidableEq, Repr

/-- The module-level mutable client state of script.js, plus the DOM
state the handlers read and write: `selectedFile`,
`originalImageDataUrl`, `optimizedImageDataUrl` (lines 15-17), the
displayed background image, the toggle checkbox, the busy indicator,
the message area, the submit button, the style select value, and the
persistent cache. -/
structure ClientState where
  selectedFile : Option JSFile
  originalImageDataUrl : Option String
  optimizedImageDataUrl : Option String
  /-- `polaroidImage.style.backgroundImage`, `none` when cleared. -/
  displayed : Option String
  toggleChecked : Bool
  toggleDisabled : Bool
  loadingShown : Bool
  submitDisabled : Bool
  /-- `showMessage(text, kind)` sets this to `some (text, kind)`;
  `clearMessage` sets it to `none`. -/
  message : Option (String × String)
  filenameText : String
  /-- `imageStyleSelect.value`. -/
  styleValue : String
  cache : CacheState
  deriving DecidableEq, Repr

def MAX_FILE_SIZE : Nat := 50 * 1024 * 1024

/-- script.js lines 191-223: `handleFileSelect`. `decoded` models the
data URL the `FileReader` produces for the accepted file; the
synchronous tail (lines 219-222) and the `reader.onload` callback
(lines 205-216) are combined into the handler's overall effect. No
cache or network effect is ever issued. -/
def handleFileSelect (file : Option JSFile) (decoded : String)
    (st : ClientState) : ClientState × List Effect :=
  match file with
  | none => (st, [])
  | some f =>
      if ¬ strStartsWith f.type "image/" then
        ({ st with message := some ("Please select a valid image file", "error") }, [])
      else if f.size > MAX_FILE_SIZE then
        ({ st with message := some ("File size must be less than 50MB", "error") }, [])
      else
        ({ st with
            originalImageDataUrl := some decoded
            optimizedImageDataUrl := none
            displayed := some decoded
            toggleChecked := false
            selectedFile := some f
            filenameText := f.name
            submitDisabled := false
            message := none }, [])

/-- Host-defined `TypeError` message raised by `selectedFile.name`
when `selectedFile` is `null` (abstracted as a constant). -/
def nullFileErrorMsg : String := "selectedFile is null"

/-- script.js lines 226-259, completion half of `optimizeImage`: the
handling of the response of the optimize request issued with style
`invStyle`. The state `st` is the client state at completion time,
which may differ from the state at invocation time. On success the
result is stored, displayed, and cached under the name of the file
selected at completion time (line 249 re-reads `selectedFile.name`);
no identity comparison against the invocation-time file is made. On a
non-success status or transport error the error is shown, the toggle
is reverted and no cache write happens; the `finally` block clears
the busy indicator and re-enables the toggle. -/
def optimizeComplete (env : CacheEnv) (now : Nat) (invStyle : String)
    (resp : OptimizeResponse) (st : ClientState) : ClientState × List Effect :=
  match resp with
  | .ok dataUrl =>
      match st.selectedFile with
      | some f =>
          ({ st with
              optimizedImageDataUrl := some dataUrl
              displayed := some dataUrl
              cache := cacheSetState env now st.cache f.name invStyle dataUrl
              loadingShown := false
              toggleDisabled := false },
            [.cacheSet f.name invStyle dataUrl])
      | none =>
          -- lines 246-247 ran, then line 249 threw; the catch block
          -- shows the error and unchecks the toggle.
          ({ st with
              optimizedImageDataUrl := some dataUrl
              displayed := some dataUrl
              message := some ("Error: " ++ nullFileErrorMsg, "error")
              toggleChecked := false
              loadingShown := false
              toggleDisabled := false }, [])
  | .httpError err =>
      ({ st with
          message := some ("Optimization failed: " ++ jsOrDefault err "Unknown error", "error")
          toggleChecked := false
          loadingShown := false
          toggleDisabled := false }, [])
  | .transportError msg =>
      ({ st with
          message := some ("Error: " ++ msg, "error")
          toggleChecked := false
          loadingShown := false
          toggleDisabled := false }, [])

/-- script.js lines 161-187: the `optimizeToggle` change handler. The
change event has already flipped the checkbox to `b` when the handler
runs. With no selected file the handler returns at once. When checked,
it shows the busy indicator, disables the toggle, clears the message,
reads the current style value, and queries the cache coordinator; the
`if (cached)` check (line 172) is a JS truthiness test, so a truthy
cached value is stored and displayed directly, while a falsy one
(`null` or the empty string) runs `optimizeImage` (request effect,
then `optimizeComplete` on the response `resp`). When unchecked, it
restores the original image if present. -/
def toggleChangeEvent (b : Bool) (env : CacheEnv) (now : Nat)
    (resp : OptimizeResponse) (st : ClientState) : ClientState × List Effect :=
  let st0 := { st with toggleChecked := b }
  match st0.selectedFile with
  | none => (st0, [])
  | some f =>
      if b then
        let st1 := { st0 with loadingShown := true, toggleDisabled := true, message := none }
        let style := st1.styleValue
        match jsOrNull (cacheGetVal env st1.cache f.name style) with
        | some c =>
            ({ st1 with
                optimizedImageDataUrl := some c
                displayed := some c
                loadingShown := false
                toggleDisabled := false },
              [.cacheGet f.name style])
        | none =>
            let (st2, effs) := optimizeComplete env now style resp st1
            (st2, .cacheGet f.name style :: .optimizeRequest f.name style :: effs)
      else
        if jsTruthyStr st0.originalImageDataUrl then
          ({ st0 with displayed := st0.originalImageDataUrl }, [])
        else
          (st0, [])

/-- The script registers no listener on `imageStyleSelect`
(script.js registers listeners only on `uploadLabel`, `fileInput`,
`optimizeToggle` and `submitBtn`, lines 143-158, 161, 271): a change
event on the style select only updates the DOM value. -/
def styleChangeEvent (newStyle : String) (st : ClientState) : ClientState × List Effect :=
  ({ st with styleValue := newStyle }, [])

/-- script.js lines 322-335: `resetForm`. -/
def resetForm (st : ClientState) : ClientState :=
  { st with
      selectedFile := none
      originalImageDataUrl := none
      optimizedImageDataUrl := none
      filenameText := "Click to select a photo"
      submitDisabled := true
      displayed := none
      toggleChecked := false }

/-- Success message shown on upload (script.js line 295). -/
def uploadSuccessMsg : String :=
  "อัปโหลดสำเร็จ! ขั้นตอนที่ 2: เรากำลังพิมพ์การ์ดอวยพรของคุณที่โต๊ะรับแขก สามารถเขียนข้อความอวยพรบ่าวสาวบนการ์ด แล้วนำไปจัดแสดงบนบอร์ดเลยครับ 👰🤵💌"

/-- script.js lines 271-307: the `submitBtn` click handler. With no
selected file it returns at once. Otherwise the payload is the
optimized bytes when the toggle is checked and `optimizedImageDataUrl`
is truthy, else the original file; on a success response the success
message is shown and `resetForm` runs; on failure the error is shown
and the submit button re-enabled; `finally` hides the busy
indicator. -/
def submitClick (resp : UploadResponse) (st : ClientState) : ClientState × List Effect :=
  match st.selectedFile with
  | none => (st, [])
  | some f =>
      let payload : UploadPayload :=
        if st.toggleChecked && jsTruthyStr st.optimizedImageDataUrl then
          .optimized (st.optimizedImageDataUrl.getD "") f.name
        else
          .original f
      let st1 := { st with submitDisabled := true, loadingShown := true, message := none }
      match resp with
      | .ok =>
          ({ resetForm { st1 with message := some (uploadSuccessMsg, "success") } with
              loadingShown := false },
            [.uploadRequest payload])
      | .httpError err =>
          ({ st1 with
              message := some ("Error: " ++ jsOrDefault err "Upload failed", "error")
              submitDisabled := false
              loadingShown := false },
            [.uploadRequest payload])
      | .transportError msg =>
          ({ st1 with
              message := some ("Error: " ++ msg, "error")
              submitDisabled := false
              loadingShown := false },
            [.uploadRequest payload])

-- ---------- Concrete fixtures used by witnesses and counterexamples ----------

def fileA : JSFile := ⟨"a.png", "image/png", 1000⟩

def fileB : JSFile := ⟨"b.png", "image/png", 2000⟩

/-- Client state while an optimize request for `(a.png, style 0)` is
pending: file A selected, its original displayed, toggle just turned
on, busy indicator shown, cache empty. -/
def statePendingA : ClientState :=
  { selectedFile := some fileA
    originalImageDataUrl := some "origA"
    optimizedImageDataUrl := none
    displayed := some "origA"
    toggleChecked := true
    toggleDisabled := true
    loadingShown := true
    submitDisabled := false
    message := none
    filenameText := "a.png"
    styleValue := "0"
    cache := emptyCache }

/-- Client state with file A selected, toggle off, an optimized
variant retained in memory, but an empty persistent cache (the earlier
cache write failed). -/
def stateOffWithOpt : ClientState :=
  { selectedFile := some fileA
    originalImageDataUrl := some "origA"
    optimizedImageDataUrl := some "OPT"
    displayed := some "origA"
    toggleChecked := false
    toggleDisabled := false
    loadingShown := false
    submitDisabled := false
    message := none
    filenameText := "a.png"
    styleValue := "0"
    cache := emptyCache }

/-- Client state with file A selected, toggle on, displaying the
optimized variant derived for style `"0"`. -/
def stateOnStyle0 : ClientState :=
  { selectedFile := some fileA
    originalImageDataUrl := some "origA"
    optimizedImageDataUrl := some "OPT0"
    displayed := some "OPT0"
    toggleChecked := true
    toggleDisabled := false
    loadingShown := false
    submitDisabled := false
    message := none
    filenameText := "a.png"
    styleValue := "0"
    cache := emptyCache }

/-- Client state with no file selected (initial state). -/
def stateEmpty : ClientState :=
  { selectedFile := none
    originalImageDataUrl := none
    optimizedImageDataUrl := none
    displayed := none
    toggleChecked := false
    toggleDisabled := false
    loadingShown := false
    submitDisabled := true
    message := none
    filenameText := "Click to select a photo"
    styleValue := "0"
    cache := emptyCache }

-- ---------- Helper lemmas ----------

theorem assocGet_put_self {α : Type} (k : String) (v : α) (l : List (String × α)) :
    assocGet k (assocPut k v l) = some v := by
  induction l with
  | nil => simp [assocGet, assocPut]
  | cons hd tl ih =>
      obtain ⟨k', v'⟩ := hd
      by_cases h : k' = k
      · simp [assocGet, assocPut, h]
      · simp [assocGet, assocPut, h, ih]

theorem data_append (s t : String) : (s ++ t).data = s.data ++ t.data := by
  cases s; cases t; rfl

theorem str_eq_of_data {s t : String} (h : s.data = t.data) : s = t := by
  cases s; cases t; exact congrArg String.mk h

/-- Splitting at an underscore separator is unambiguous when the part
before it consists only of decimal digits. -/
theorem digitRun_sep_inj :
    ∀ (u1 v1 u2 v2 : List Char),
      (∀ c ∈ u1, c.isDigit = true) → (∀ c ∈ u2, c.isDigit = true) →
      u1 ++ '_' :: v1 = u2 ++ '_' :: v2 → u1 = u2 ∧ v1 = v2 := by
  intro u1
  induction u1 with
  | nil =>
      intro v1 u2 v2 _ h2 h
      cases u2 with
      | nil => simpa using h
      | cons d u2' =>
          rw [List.nil_append, List.cons_append] at h
          injection h with hhd htl
          have hd := h2 d (List.mem_cons_self d u2')
          rw [← hhd] at hd
          exact absurd hd (by decide)
  | cons c u1' ih =>
      intro v1 u2 v2 h1 h2 h
      cases u2 with
      | nil =>
          rw [List.cons_append, List.nil_append] at h
          injection h with hhd htl
          have hd := h1 c (List.mem_cons_self c u1')
          rw [hhd] at hd
          exact absurd hd (by decide)
      | cons d u2' =>
          rw [List.cons_append, List.cons_append] at h
          injection h with hhd htl
          obtain ⟨hu, hv⟩ := ih v1 u2' v2
            (fun x hx => h1 x (List.mem_cons_of_mem c hx))
            (fun x hx => h2 x (List.mem_cons_of_mem d hx)) htl
          exact ⟨by rw [hhd, hu], hv⟩

-- ---------- Claim theorems ----------

/-- C4: the composite cache key is deterministic — computing it twice
from the same pair gives the identical key — and, for styles in their
canonical decimal rendering, collision-free: equal keys force equal
(fileName, style) pairs, so pairs differing in either component get
different keys. -/
theorem compositeKey_deterministic_injective
    (f1 s1 f2 s2 : String) (h1 : allDigits s1) (h2 : allDigits s2) :
    getCompositeKey f1 s1 = getCompositeKey f1 s1 ∧
    (getCompositeKey f1 s1 = getCompositeKey f2 s2 → f1 = f2 ∧ s1 = s2) := by
  refine ⟨rfl, fun h => ?_⟩
  have hd : (getCompositeKey f1 s1).data = (getCompositeKey f2 s2).data := by rw [h]
  unfold getCompositeKey at hd
  simp only [data_append] at hd
  have hr := congrArg List.reverse hd
  simp only [List.reverse_append] at hr
  have hsep : ("_style_" : String).data.reverse
      = '_' :: 'e' :: 'l' :: 'y' :: 't' :: 's' :: '_' :: [] := by decide
  rw [hsep] at hr
  simp only [List.cons_append, List.nil_append] at hr
  have hdig1 : ∀ c ∈ s1.data.reverse, c.isDigit = true :=
    fun c hc => h1 c (List.mem_reverse.mp hc)
  have hdig2 : ∀ c ∈ s2.data.reverse, c.isDigit = true :=
    fun c hc => h2 c (List.mem_reverse.mp hc)
  obtain ⟨hu, hv⟩ := digitRun_sep_inj _ _ _ _ hdig1 hdig2 hr
  constructor
  · have hfr : f1.data.reverse = f2.data.reverse := by simpa using hv
    exact str_eq_of_data (List.reverse_inj.mp hfr)
  · exact str_eq_of_data (List.reverse_inj.mp hu)

/-- Witness for C4: the pairs (`a.png`, `0`) and (`b.png`, `1`)
receive different keys. -/
theorem compositeKey_deterministic_injective_witness :
    getCompositeKey "a.png" "0" ≠ getCompositeKey "b.png" "1" := fun h =>
  absurd ((compositeKey_deterministic_injective "a.png" "0" "b.png" "1"
    (by decide) (by decide)).2 h).1 (by decide)

/-- C3: the Cache Coordinator never lets a backend failure propagate:
`get` always returns normally, falling through to the fallback store
and yielding `none` when the structured store errors or misses and the
fallback misses; `set` always returns normally, a failed
structured-store write falls back to the flat store, and when that too
fails (quota) the write is a silent no-op. -/
theorem cache_absorbs_backend_failures
    (env : CacheEnv) (now : Nat) (st : CacheState) (f s d : String) :
    (∃ v, imageCacheGet env st f s = .ok v) ∧
    (∃ st', imageCacheSet env now st f s d = .ok st') ∧
    ((env.idbReadError = true ∨ assocGet (getCompositeKey f s) st.idb = none) →
      jsOrNull (lsGetItem st (cacheKeyNS ++ getCompositeKey f s)) = none →
      imageCacheGet env st f s = .ok none) ∧
    (env.idbAvail = true → env.idbWriteError = true → env.lsQuota = false →
      imageCacheSet env now st f s d =
        .ok { st with ls := assocPut (cacheKeyNS ++ getCompositeKey f s) d st.ls }) ∧
    (env.lsQuota = true → (env.idbAvail = false ∨ env.idbWriteError = true) →
      imageCacheSet env now st f s d = .ok st) := by
  obtain ⟨avail, rerr, werr, quota⟩ := env
  refine ⟨?_, ?_, ?_, ?_, ?_⟩
  · cases avail <;> cases rerr <;>
      simp only [imageCacheGet, openDB, idbGet, lsGetItem, Bool.false_eq_true,
        if_false, if_true, reduceIte] <;>
      rcases assocGet (getCompositeKey f s) st.idb with _ | rec <;> simp
  · cases avail <;> cases werr <;> cases quota <;>
      simp [imageCacheSet, openDB, idbPut, lsSetItem]
  · intro hidb hls
    rcases hidb with h | h <;> cases avail <;> cases rerr <;>
      simp_all [imageCacheGet, openDB, idbGet, lsGetItem]
  · intro ha hw hq
    subst ha; subst hw; subst hq
    simp [imageCacheSet, openDB, idbPut, lsSetItem]
  · intro hq hcase
    subst hq
    cases avail <;> cases werr <;>
      simp_all [imageCacheSet, openDB, idbPut, lsSetItem]

/-- Witness for C3 at a concrete input: with the structured store
available but its write failing and quota exhausted, `set` silently
returns the state unchanged; a fully-missing read returns `none`. -/
theorem cache_absorbs_backend_failures_witness :
    imageCacheGet ⟨true, true, true, true⟩ emptyCache "a.png" "0" = .ok none ∧
    imageCacheSet ⟨true, true, true, true⟩ 3 emptyCache "a.png" "0" "DATA" = .ok emptyCache := by
  refine ⟨?_, ?_⟩
  · exact (cache_absorbs_backend_failures ⟨true, true, true, true⟩ 3 emptyCache
      "a.png" "0" "DATA").2.2.1 (Or.inl rfl) (by decide)
  · exact (cache_absorbs_backend_failures ⟨true, true, true, true⟩ 3 emptyCache
      "a.png" "0" "DATA").2.2.2.2 rfl (Or.inr rfl)

/-- C5: a candidate file is accepted iff its media type starts with
`image/` and its size is at most 50 MB; a rejected file produces a
user-visible error, issues no effect (in particular no network
interaction), and leaves the selected file and all derived variant
state unchanged. -/
theorem handleFileSelect_validation
    (f : JSFile) (decoded : String) (st : ClientState) :
    ((strStartsWith f.type "image/" = true ∧ f.size ≤ MAX_FILE_SIZE) →
      (handleFileSelect (some f) decoded st).1.selectedFile = some f ∧
      (handleFileSelect (some f) decoded st).2 = []) ∧
    (¬ (strStartsWith f.type "image/" = true ∧ f.size ≤ MAX_FILE_SIZE) →
      (handleFileSelect (some f) decoded st).1.selectedFile = st.selectedFile ∧
      (handleFileSelect (some f) decoded st).1.originalImageDataUrl = st.originalImageDataUrl ∧
      (handleFileSelect (some f) decoded st).1.optimizedImageDataUrl = st.optimizedImageDataUrl ∧
      (handleFileSelect (some f) decoded st).1.displayed = st.displayed ∧
      (handleFileSelect (some f) decoded st).1.cache = st.cache ∧
      (∃ m, (handleFileSelect (some f) decoded st).1.message = some (m, "error")) ∧
      (handleFileSelect (some f) decoded st).2 = []) := by
  constructor
  · rintro ⟨ht, hs⟩
    have hs' : ¬ f.size > MAX_FILE_SIZE := by omega
    simp [handleFileSelect, ht, hs']
  · intro hrej
    by_cases ht : strStartsWith f.type "image/" = true
    · have hs : f.size > MAX_FILE_SIZE := by
        by_contra hs
        exact hrej ⟨ht, by omega⟩
      simp [handleFileSelect, ht, hs]
    · simp [handleFileSelect, ht]

/-- Witness for C5 at a concrete input: a 60 MB file is rejected with
an error message and the empty prior state is untouched. -/
theorem handleFileSelect_validation_witness :
    (handleFileSelect (some ⟨"big.png", "image/png", 60 * 1024 * 1024⟩) "d" stateEmpty).1.selectedFile
        = stateEmpty.selectedFile ∧
    (handleFileSelect (some ⟨"big.png", "image/png", 60 * 1024 * 1024⟩) "d" stateEmpty).2 = [] := by
  have h := (handleFileSelect_validation ⟨"big.png", "image/png", 60 * 1024 * 1024⟩ "d" stateEmpty).2
    (by decide)
  exact ⟨h.1, h.2.2.2.2.2.2⟩

/-- C1 counterexample: while the optimize request issued for
`(a.png, style 0)` is pending, file `b.png` is selected (which clears
the derived state and displays B's original); when the pending request
then completes, its result `staleA` is nevertheless applied: it is
displayed, stored as the in-memory Optimized variant, and even cached
under the new file's name `b.png` — not discarded, although its
identity no longer matches the current selection. -/
theorem stale_optimize_result_displayed :
    (handleFileSelect (some fileB) "origB" statePendingA).1.selectedFile = some fileB ∧
    (handleFileSelect (some fileB) "origB" statePendingA).1.displayed = some "origB" ∧
    (handleFileSelect (some fileB) "origB" statePendingA).1.optimizedImageDataUrl = none ∧
    (optimizeComplete okEnv 7 "0" (.ok "staleA")
        (handleFileSelect (some fileB) "origB" statePendingA).1).1.selectedFile = some fileB ∧
    (optimizeComplete okEnv 7 "0" (.ok "staleA")
        (handleFileSelect (some fileB) "origB" statePendingA).1).1.displayed = some "staleA" ∧
    (optimizeComplete okEnv 7 "0" (.ok "staleA")
        (handleFileSelect (some fileB) "origB" statePendingA).1).1.optimizedImageDataUrl
      = some "staleA" ∧
    cacheGetVal okEnv
      (optimizeComplete okEnv 7 "0" (.ok "staleA")
        (handleFileSelect (some fileB) "origB" statePendingA).1).1.cache "b.png" "0"
      = some "staleA" := by
  decide

/-- C1 as amended: on completion of an optimize request issued with
style `invStyle`, a success result is applied unconditionally — the
identity of the file and style active at invocation time is never
compared against the current selection; the result is displayed,
stored in memory, and cached under the name of the *currently*
selected file, whatever that file is. -/
theorem optimize_result_applied_unconditionally
    (env : CacheEnv) (now : Nat) (invStyle dataUrl : String)
    (st : ClientState) (f : JSFile) (hf : st.selectedFile = some f) :
    (optimizeComplete env now invStyle (.ok dataUrl) st).1.optimizedImageDataUrl
        = some dataUrl ∧
    (optimizeComplete env now invStyle (.ok dataUrl) st).1.displayed = some dataUrl ∧
    (optimizeComplete env now invStyle (.ok dataUrl) st).1.cache
        = cacheSetState env now st.cache f.name invStyle dataUrl ∧
    (optimizeComplete env now invStyle (.ok dataUrl) st).2
        = [.cacheSet f.name invStyle dataUrl] := by
  simp [optimizeComplete, hf]

/-- Witness for amended C1: a completion arriving after file B was
selected is displayed and cached under `b.png`. -/
theorem optimize_result_applied_unconditionally_witness :
    (optimizeComplete okEnv 7 "0" (.ok "staleA")
        (handleFileSelect (some fileB) "origB" statePendingA).1).1.displayed
      = some "staleA" ∧
    (optimizeComplete okEnv 7 "0" (.ok "staleA")
        (handleFileSelect (some fileB) "origB" statePendingA).1).2
      = [.cacheSet "b.png" "0" "staleA"] := by
  have h := optimize_result_applied_unconditionally okEnv 7 "0" "staleA"
    (handleFileSelect (some fileB) "origB" statePendingA).1 fileB (by decide)
  exact ⟨h.2.1, h.2.2.2⟩

/-- C2 counterexample: with the structured store servicing `set` (it
is available and healthy) but the fallback store servicing the later
`get` (the structured store fails to open at that call), the written
value is not returned: `get` yields `none`, not the written
`"DATA"`. -/
theorem set_get_cross_backend_miss :
    cacheGetVal noIdbEnv (cacheSetState okEnv 0 emptyCache "a.png" "0" "DATA") "a.png" "0"
      = none ∧
    (none : Option String) ≠ some "DATA" := by
  decide

/-- C2 as amended: provided the same backend services both calls (the
per-call environment is unchanged), no backend read/write failure
occurs, and the value is a non-empty string, `set` followed by `get`
returns the written value; repeating the identical `set` raises no
error and leaves `get` still returning that value. -/
theorem set_get_roundtrip_same_backend
    (env : CacheEnv) (now now' : Nat) (st : CacheState) (f s d : String)
    (hr : env.idbReadError = false) (hw : env.idbWriteError = false)
    (hq : env.lsQuota = false) (hd : d ≠ "") :
    imageCacheGet env (cacheSetState env now st f s d) f s = .ok (some d) ∧
    (∃ st2, imageCacheSet env now' (cacheSetState env now st f s d) f s d = .ok st2 ∧
      imageCacheGet env st2 f s = .ok (some d)) := by
  obtain ⟨avail, rerr, werr, quota⟩ := env
  dsimp at hr hw hq
  subst hr; subst hw; subst hq
  cases avail
  · constructor
    · simp [cacheSetState, imageCacheSet, imageCacheGet, openDB, lsSetItem,
        lsGetItem, jsOrNull, assocGet_put_self, hd]
    · refine ⟨_, rfl, ?_⟩
      simp [cacheSetState, imageCacheSet, imageCacheGet, openDB, lsSetItem,
        lsGetItem, jsOrNull, assocGet_put_self, hd]
  · constructor
    · simp [cacheSetState, imageCacheSet, imageCacheGet, openDB, idbPut, idbGet,
        assocGet_put_self]
    · refine ⟨_, rfl, ?_⟩
      simp [cacheSetState, imageCacheSet, imageCacheGet, openDB, idbPut, idbGet,
        assocGet_put_self]

/-- Witness for amended C2 at a concrete input, once under the
structured store and once under the fallback store. -/
theorem set_get_roundtrip_same_backend_witness :
    imageCacheGet okEnv (cacheSetState okEnv 1 emptyCache "a.png" "0" "DATA") "a.png" "0"
      = .ok (some "DATA") ∧
    imageCacheGet noIdbEnv (cacheSetState noIdbEnv 1 emptyCache "a.png" "0" "DATA") "a.png" "0"
      = .ok (some "DATA") :=
  ⟨(set_get_roundtrip_same_backend okEnv 1 2 emptyCache "a.png" "0" "DATA"
      rfl rfl rfl (by decide)).1,
    (set_get_roundtrip_same_backend noIdbEnv 1 2 emptyCache "a.png" "0" "DATA"
      rfl rfl rfl (by decide)).1⟩

/-- C8 counterexample: with an Optimized variant `OPT` retained in
memory but absent from the persistent cache (its write had failed),
toggling back on for the same (file, style) does *not* serve the
in-memory value: the handler re-queries the cache, misses, issues a
fresh network optimize request, and displays the new response `NEW`,
not the retained `OPT`. -/
theorem toggle_on_requeries_cache :
    stateOffWithOpt.optimizedImageDataUrl = some "OPT" ∧
    (toggleChangeEvent true okEnv 5 (.ok "NEW") stateOffWithOpt).2
      = [.cacheGet "a.png" "0", .optimizeRequest "a.png" "0", .cacheSet "a.png" "0" "NEW"] ∧
    (toggleChangeEvent true okEnv 5 (.ok "NEW") stateOffWithOpt).1.displayed = some "NEW" := by
  decide

/-- C8 as amended: toggling off displays the Original variant and
retains the Optimized variant in memory; toggling back on always
re-queries the persistent cache first — on a truthy hit (a non-empty
cached value, the `if (cached)` test) the cached value is stored and
displayed, while on a falsy result (no entry, or an empty stored
value) a fresh network optimize request is issued — rather than
serving directly from the in-memory value. -/
theorem toggle_off_retains_on_requeries
    (env : CacheEnv) (now : Nat) (resp : OptimizeResponse)
    (st : ClientState) (f : JSFile) (hf : st.selectedFile = some f) :
    (jsTruthyStr st.originalImageDataUrl = true →
      (toggleChangeEvent false env now resp st).1.displayed = st.originalImageDataUrl ∧
      (toggleChangeEvent false env now resp st).1.optimizedImageDataUrl
        = st.optimizedImageDataUrl ∧
      (toggleChangeEvent false env now resp st).2 = []) ∧
    ((toggleChangeEvent true env now resp st).2.head?
      = some (.cacheGet f.name st.styleValue)) ∧
    (∀ c, cacheGetVal env st.cache f.name st.styleValue = some c → c ≠ "" →
      (toggleChangeEvent true env now resp st).1.displayed = some c ∧
      (toggleChangeEvent true env now resp st).1.optimizedImageDataUrl = some c ∧
      (toggleChangeEvent true env now resp st).2 = [.cacheGet f.name st.styleValue]) ∧
    (jsOrNull (cacheGetVal env st.cache f.name st.styleValue) = none →
      (toggleChangeEvent true env now resp st).2.take 2
        = [.cacheGet f.name st.styleValue, .optimizeRequest f.name st.styleValue]) := by
  refine ⟨?_, ?_, ?_, ?_⟩
  · intro h
    simp [toggleChangeEvent, hf, h]
  · rcases hcv : jsOrNull (cacheGetVal env st.cache f.name st.styleValue) with _ | c <;>
      simp [toggleChangeEvent, hf, hcv]
  · intro c hcv hc
    simp [toggleChangeEvent, hf, hcv, jsOrNull, hc]
  · intro hcv
    simp [toggleChangeEvent, hf, hcv]

/-- Witness for amended C8: toggling off from the dual state keeps the
Optimized value in memory and displays the Original; toggling on
re-queries the cache. -/
theorem toggle_off_retains_on_requeries_witness :
    (toggleChangeEvent false okEnv 5 (.ok "NEW") stateOffWithOpt).1.displayed = some "origA" ∧
    (toggleChangeEvent false okEnv 5 (.ok "NEW") stateOffWithOpt).1.optimizedImageDataUrl
      = some "OPT" ∧
    (toggleChangeEvent true okEnv 5 (.ok "NEW") stateOffWithOpt).2.head?
      = some (.cacheGet "a.png" "0") := by
  have h := toggle_off_retains_on_requeries okEnv 5 (.ok "NEW") stateOffWithOpt fileA rfl
  have h1 := h.1 (by decide)
  exact ⟨h1.1, h1.2.1, h.2.1⟩

/-- C9 counterexample: with the toggle on and the Optimized variant
for style `"0"` displayed, changing the style selection to `"1"` is
inert — the script registers no listener on the style select — so no
cache lookup or network request is issued and the display still shows
the style-`"0"` variant, which does not correspond to the newly
selected style. -/
theorem style_change_does_not_rerun :
    styleChangeEvent "1" stateOnStyle0
      = ({ stateOnStyle0 with styleValue := "1" }, []) ∧
    (styleChangeEvent "1" stateOnStyle0).1.displayed = some "OPT0" ∧
    (styleChangeEvent "1" stateOnStyle0).1.optimizedImageDataUrl = some "OPT0" := by
  decide

/-- C9 as amended: a style change alone triggers nothing (no cache
lookup, no network request, no state change beyond the select's own
value); the new (file, style) pair takes effect only at the next
toggle-on event, which re-runs the cache check for the new style —
and whose issued effects are independent of the in-memory Optimized
value derived for the previous style. -/
theorem style_change_inert_next_toggle_uses_new_style
    (st : ClientState) (ns : String) (env : CacheEnv) (now : Nat)
    (resp : OptimizeResponse) (f : JSFile) (hf : st.selectedFile = some f) :
    styleChangeEvent ns st = ({ st with styleValue := ns }, []) ∧
    ((toggleChangeEvent true env now resp (styleChangeEvent ns st).1).2.head?
      = some (.cacheGet f.name ns)) ∧
    (∀ v, (toggleChangeEvent true env now resp
            { (styleChangeEvent ns st).1 with optimizedImageDataUrl := v }).2
          = (toggleChangeEvent true env now resp (styleChangeEvent ns st).1).2) := by
  refine ⟨rfl, ?_, ?_⟩
  · rcases hcv : jsOrNull (cacheGetVal env st.cache f.name ns) with _ | c
    · cases resp <;>
        simp [toggleChangeEvent, styleChangeEvent, hf, hcv, optimizeComplete]
    · simp [toggleChangeEvent, styleChangeEvent, hf, hcv]
  · intro v
    rcases hcv : jsOrNull (cacheGetVal env st.cache f.name ns) with _ | c
    · cases resp <;>
        simp [toggleChangeEvent, styleChangeEvent, hf, hcv, optimizeComplete]
    · simp [toggleChangeEvent, styleChangeEvent, hf, hcv]

/-- Witness for amended C9: after changing the style to `"1"`, the
next toggle-on queries the cache for `(a.png, "1")`. -/
theorem style_change_inert_witness :
    styleChangeEvent "1" stateOnStyle0
      = ({ stateOnStyle0 with styleValue := "1" }, []) ∧
    (toggleChangeEvent true okEnv 5 (.ok "NEW")
        (styleChangeEvent "1" stateOnStyle0).1).2.head?
      = some (.cacheGet "a.png" "1") := by
  have h := style_change_inert_next_toggle_uses_new_style stateOnStyle0 "1" okEnv 5
    (.ok "NEW") fileA rfl
  exact ⟨h.1, h.2.1⟩

/-- C6: on a non-success status or a transport error of the optimize
endpoint, the error message is surfaced, the toggle is reverted to
off, the busy indicator is cleared, the displayed image (the Original
variant) and the cache are untouched, and no cache-write effect is
issued. -/
theorem optimize_failure_reverts
    (env : CacheEnv) (now : Nat) (invStyle : String) (st : ClientState)
    (err : Option String) (msg : String) :
    ((optimizeComplete env now invStyle (.httpError err) st).1.message
        = some ("Optimization failed: " ++ jsOrDefault err "Unknown error", "error") ∧
      (optimizeComplete env now invStyle (.httpError err) st).1.toggleChecked = false ∧
      (optimizeComplete env now invStyle (.httpError err) st).1.loadingShown = false ∧
      (optimizeComplete env now invStyle (.httpError err) st).1.displayed = st.displayed ∧
      (optimizeComplete env now invStyle (.httpError err) st).1.originalImageDataUrl
        = st.originalImageDataUrl ∧
      (optimizeComplete env now invStyle (.httpError err) st).1.cache = st.cache ∧
      (optimizeComplete env now invStyle (.httpError err) st).2 = []) ∧
    ((optimizeComplete env now invStyle (.transportError msg) st).1.message
        = some ("Error: " ++ msg, "error") ∧
      (optimizeComplete env now invStyle (.transportError msg) st).1.toggleChecked = false ∧
      (optimizeComplete env now invStyle (.transportError msg) st).1.loadingShown = false ∧
      (optimizeComplete env now invStyle (.transportError msg) st).1.displayed = st.displayed ∧
      (optimizeComplete env now invStyle (.transportError msg) st).1.cache = st.cache ∧
      (optimizeComplete env now invStyle (.transportError msg) st).2 = []) ∧
    (st.displayed = st.originalImageDataUrl →
      (optimizeComplete env now invStyle (.httpError err) st).1.displayed
        = st.originalImageDataUrl) := by
  refine ⟨?_, ?_, ?_⟩
  · simp [optimizeComplete]
  · simp [optimizeComplete]
  · intro h
    simpa [optimizeComplete] using h

/-- Witness for C6: the endpoint answers a non-success status with
error `quota exceeded` while the Original is displayed; the message
contains `quota exceeded`, the toggle reverts and the Original stays
displayed. -/
theorem optimize_failure_reverts_witness :
    (optimizeComplete okEnv 3 "0" (.httpError (some "quota exceeded")) statePendingA).1.message
        = some ("Optimization failed: quota exceeded", "error") ∧
    (optimizeComplete okEnv 3 "0" (.httpError (some "quota exceeded")) statePendingA).1.toggleChecked
        = false ∧
    (optimizeComplete okEnv 3 "0" (.httpError (some "quota exceeded")) statePendingA).1.displayed
        = statePendingA.originalImageDataUrl := by
  have h := optimize_failure_reverts okEnv 3 "0" statePendingA (some "quota exceeded") "m"
  refine ⟨?_, h.1.2.1, h.2.2 (by decide)⟩
  have h1 := h.1.1
  simpa [jsOrDefault] using h1

/-- C7: with a file selected, the submitted payload is the Optimized
variant iff the toggle is on and the optimized data URL is truthy
(available), else the original file; on upload success the form is
reset to Empty (file and both variants cleared); on either kind of
upload failure the selection, variants and display are retained,
submission is re-enabled and an error is shown. -/
theorem submit_payload_and_outcome
    (st : ClientState) (f : JSFile) (resp : UploadResponse)
    (hf : st.selectedFile = some f) :
    ((st.toggleChecked = true ∧ jsTruthyStr st.optimizedImageDataUrl = true →
        (submitClick resp st).2
          = [.uploadRequest (.optimized (st.optimizedImageDataUrl.getD "") f.name)]) ∧
      (¬ (st.toggleChecked = true ∧ jsTruthyStr st.optimizedImageDataUrl = true) →
        (submitClick resp st).2 = [.uploadRequest (.original f)])) ∧
    (resp = .ok →
      (submitClick resp st).1.selectedFile = none ∧
      (submitClick resp st).1.originalImageDataUrl = none ∧
      (submitClick resp st).1.optimizedImageDataUrl = none ∧
      (submitClick resp st).1.displayed = none ∧
      (submitClick resp st).1.submitDisabled = true) ∧
    (∀ e, resp = .httpError e →
      (submitClick resp st).1.selectedFile = st.selectedFile ∧
      (submitClick resp st).1.originalImageDataUrl = st.originalImageDataUrl ∧
      (submitClick resp st).1.optimizedImageDataUrl = st.optimizedImageDataUrl ∧
      (submitClick resp st).1.displayed = st.displayed ∧
      (submitClick resp st).1.submitDisabled = false ∧
      (submitClick resp st).1.message
        = some ("Error: " ++ jsOrDefault e "Upload failed", "error")) ∧
    (∀ m, resp = .transportError m →
      (submitClick resp st).1.selectedFile = st.selectedFile ∧
      (submitClick resp st).1.originalImageDataUrl = st.originalImageDataUrl ∧
      (submitClick resp st).1.optimizedImageDataUrl = st.optimizedImageDataUrl ∧
      (submitClick resp st).1.displayed = st.displayed ∧
      (submitClick resp st).1.submitDisabled = false ∧
      (submitClick resp st).1.message = some ("Error: " ++ m, "error")) := by
  refine ⟨⟨?_, ?_⟩, ?_, ?_, ?_⟩
  · rintro ⟨h1, h2⟩
    cases resp <;> simp [submitClick, hf, h1, h2]
  · intro h
    rcases Decidable.em (st.toggleChecked = true) with h1 | h1 <;>
      rcases Decidable.em (jsTruthyStr st.optimizedImageDataUrl = true) with h2 | h2
    · exact absurd ⟨h1, h2⟩ h
    all_goals cases resp <;>
      simp_all [submitClick, hf]
  · rintro rfl
    simp [submitClick, hf, resetForm]
  · rintro e rfl
    simp [submitClick, hf]
  · rintro m rfl
    simp [submitClick, hf]

/-- Witness for C7: submitting with the toggle on and an available
Optimized variant sends the optimized bytes, and an upload failure
keeps the selection while re-enabling submission. -/
theorem submit_payload_and_outcome_witness :
    (submitClick .ok stateOnStyle0).2
      = [.uploadRequest (.optimized "OPT0" "a.png")] ∧
    (submitClick (.httpError (some "Upload failed")) stateOnStyle0).1.selectedFile
      = some fileA ∧
    (submitClick (.httpError (some "Upload failed")) stateOnStyle0).1.submitDisabled
      = false := by
  refine ⟨?_, ?_, ?_⟩
  · have h := (submit_payload_and_outcome stateOnStyle0 fileA .ok rfl).1.1
      ⟨rfl, by decide⟩
    simpa [stateOnStyle0, fileA] using h
  · have h := (submit_payload_and_outcome stateOnStyle0 fileA
      (.httpError (some "Upload failed")) rfl).2.2.1 (some "Upload failed") rfl
    simpa [stateOnStyle0] using h.1
  · exact ((submit_payload_and_outcome stateOnStyle0 fileA
      (.httpError (some "Upload failed")) rfl).2.2.1 (some "Upload failed") rfl).2.2.2.2.1

/-- C10: with no file selected, a change event on the optimize toggle
and a click on the submit button are complete no-ops: no effect is
issued (no network request, no cache access) and the selected file,
both variants, the displayed image and all other client state are left
unchanged (the toggle event only records the checkbox's own new
position). -/
theorem no_file_selected_noop
    (b : Bool) (env : CacheEnv) (now : Nat) (resp : OptimizeResponse)
    (uresp : UploadResponse) (st : ClientState) (h : st.selectedFile = none) :
    toggleChangeEvent b env now resp st = ({ st with toggleChecked := b }, []) ∧
    submitClick uresp st = (st, []) := by
  constructor
  · simp [toggleChangeEvent, h]
  · simp [submitClick, h]

/-- Witness for C10 at the concrete empty state. -/
theorem no_file_selected_noop_witness :
    toggleChangeEvent true okEnv 0 (.ok "X") stateEmpty
        = ({ stateEmpty with toggleChecked := true }, []) ∧
    submitClick .ok stateEmpty = (stateEmpty, []) :=
  no_file_selected_noop true okEnv 0 (.ok "X") .ok stateEmpty rfl

end WeddingCard
